import Mathlib

/-!
# Verification of the fresh-editor client transport / handshake / relay core

Shallow embedding of `crates/fresh-editor/src/client/mod.rs`.

The client-side connection object (`ClientConnection`, from `server/ipc.rs`),
the wire types (`server/protocol.rs`) and the platform relay backends
(`relay_unix.rs` / `relay_windows.rs`) are external to the sources available
here; the handshake and dispatch logic of `mod.rs` is embedded faithfully as a
pure function over an environment that describes how those external calls
behave, and the function is instrumented with an event trace recording every
control-channel, data-channel and mode-switch operation it performs.
-/

/-- Terminal size, `TermSize { cols, rows }` (`server/protocol.rs`, fields per
spec §6: `columns: uint16, rows: uint16`, sizes modelled as `Nat`). -/
structure TermSize where
  cols : Nat
  rows : Nat
deriving DecidableEq

/-- `ClientHello::new(term_size)`: the client hello carries the terminal size. -/
structure ClientHello where
  term_size : TermSize
deriving DecidableEq

/-- `ServerHello { protocol_version, server_version, session_id }`. -/
structure ServerHello where
  protocol_version : Nat
  server_version : String
  session_id : String
deriving DecidableEq

/-- Payload of the server's `VersionMismatch` control message. -/
structure VersionMismatchMsg where
  server_version : String
deriving DecidableEq

/-- `ClientControl`: tagged union of control messages the client sends. -/
inductive ClientControl where
  | Hello (h : ClientHello)
  | Resize (s : TermSize)
  | Detach
deriving DecidableEq

/-- `ServerControl`: tagged union of server control messages. The `_` arm of
the handshake match in `mod.rs` covers the further session-lifecycle variants
owned by the server (spec §3); they are represented by `OtherVariant`. -/
inductive ServerControl where
  | Hello (h : ServerHello)
  | VersionMismatch (m : VersionMismatchMsg)
  | Error (message : String)
  | OtherVariant
deriving DecidableEq

/-- Error kinds of `std::io::Error` that the client code distinguishes:
`UnexpectedEof` is constructed explicitly; everything built through
`io::Error::other` is `Other`. -/
inductive ErrorKind where
  | UnexpectedEof
  | Other
deriving DecidableEq

/-- Model of `std::io::Error`: a kind plus its message. -/
structure IOError where
  kind : ErrorKind
  msg : String
deriving DecidableEq

/-- `io::Error::other(msg)`. -/
def IOError.other (msg : String) : IOError :=
  ⟨ErrorKind.Other, msg⟩

/-- Reason the client exited: `ClientExitReason` (`mod.rs` lines 36–46). -/
inductive ClientExitReason where
  | ServerQuit
  | Detached
  | VersionMismatch (server_version : String)
  | Error (e : IOError)
deriving DecidableEq

/-- Modelled from the spec: `SocketPaths` (`server/ipc.rs` is not available);
an opaque pair of endpoint paths, spec §3 `SessionEndpoints`. -/
structure SocketPaths where
  data_path : String
  control_path : String
deriving DecidableEq

/-- `ClientConfig { socket_paths, term_size }` (`mod.rs` lines 28–33). -/
structure ClientConfig where
  socket_paths : SocketPaths
  term_size : TermSize
deriving DecidableEq

/-- Modelled from the spec: `PROTOCOL_VERSION` (`server/protocol.rs` is not
available); spec §3 invariant I3 says it is a single integer compiled into
both client and server, compared by exact match. Its concrete value is
irrelevant to every property proved below. -/
def PROTOCOL_VERSION : Nat := 1

/-- Events recording the operations the client performs on its connection and
terminal, in program order. -/
inductive ClientEvent where
  | writeControl (m : ClientControl)
  | readControl
  | dataRead
  | dataWrite
  | setDataNonblocking (b : Bool)
  | setupResizeHandler
  | enterRelayLoop
  | enableRawMode
  | disableRawMode
deriving DecidableEq

/-- Outcome of the single `conn.read_control()` call of the handshake,
combined with the subsequent `serde_json::from_str::<ServerControl>`:
`readErr` is `Err(e)` from the read, `closed` is `Ok(None)` (clean EOF),
`undecodable` is a received message that fails to decode, `decoded` a
successfully decoded `ServerControl`. -/
inductive ControlReadOutcome where
  | readErr (e : IOError)
  | closed
  | undecodable (emsg : String)
  | decoded (m : ServerControl)
deriving DecidableEq

/-- Behaviour of the connection during the handshake:
whether `conn.write_control(&hello_json)` fails, and what the reply read
produces. -/
structure HandshakeEnv where
  writeControlOutcome : Option IOError
  readOutcome : ControlReadOutcome
deriving DecidableEq

/-- Behaviour of the externals used by `run_client_relay`: the
`set_data_nonblocking(true)` call, the Unix resize-handler installation, and
the platform relay loop itself (its result and the trace of operations it
performs). -/
structure RelayEnv where
  setNonblockingErr : Option IOError
  setupHandlerErr : Option IOError
  loopResult : Except IOError ClientExitReason
  loopTrace : List ClientEvent

/-- Compile-time platform selection (`#[cfg(unix)]` / `#[cfg(windows)]`). -/
inductive Platform where
  | unix
  | windows
deriving DecidableEq

/-- The handshake portion of `run_client_with_connection` (`mod.rs` lines
70–108): build the hello, send it, read and decode the reply, dispatch on the
variant. Result `.ok none` means fall through to `run_client_relay`;
`.ok (some r)` is an early `return Ok(r)`; `.error e` is `return Err(e)`.
The second component is the trace of connection operations performed. -/
def handshake (term_size : TermSize) (env : HandshakeEnv) :
    Except IOError (Option ClientExitReason) × List ClientEvent :=
  let hello : ClientHello := ⟨term_size⟩
  let sendEvt := ClientEvent.writeControl (ClientControl.Hello hello)
  match env.writeControlOutcome with
  | some e => (Except.error e, [sendEvt])
  | none =>
    match env.readOutcome with
    | ControlReadOutcome.readErr e =>
        (Except.error e, [sendEvt, ClientEvent.readControl])
    | ControlReadOutcome.closed =>
        (Except.error ⟨ErrorKind.UnexpectedEof, "Server closed connection"⟩,
          [sendEvt, ClientEvent.readControl])
    | ControlReadOutcome.undecodable emsg =>
        (Except.error (IOError.other emsg), [sendEvt, ClientEvent.readControl])
    | ControlReadOutcome.decoded m =>
      match m with
      | ServerControl.Hello server_hello =>
          if server_hello.protocol_version ≠ PROTOCOL_VERSION then
            (Except.ok (some (ClientExitReason.VersionMismatch
                server_hello.server_version)),
              [sendEvt, ClientEvent.readControl])
          else
            (Except.ok none, [sendEvt, ClientEvent.readControl])
      | ServerControl.VersionMismatch mismatch =>
          (Except.ok (some (ClientExitReason.VersionMismatch
              mismatch.server_version)),
            [sendEvt, ClientEvent.readControl])
      | ServerControl.Error message =>
          (Except.error (IOError.other ("Server error: " ++ message)),
            [sendEvt, ClientEvent.readControl])
      | ServerControl.OtherVariant =>
          (Except.error (IOError.other "Unexpected server response"),
            [sendEvt, ClientEvent.readControl])

/-- `run_client_relay` (`mod.rs` lines 117–137): on non-Windows platforms call
`conn.set_data_nonblocking(true)?`, then (Unix) install the resize handler and
run `relay_unix::relay_loop`; on Windows run `relay_windows::relay_loop`
directly, without any prior non-blocking switch. -/
def run_client_relay (platform : Platform) (env : RelayEnv) :
    Except IOError ClientExitReason × List ClientEvent :=
  match platform with
  | Platform.unix =>
    match env.setNonblockingErr with
    | some e => (Except.error e, [ClientEvent.setDataNonblocking true])
    | none =>
      match env.setupHandlerErr with
      | some e =>
          (Except.error e,
            [ClientEvent.setDataNonblocking true, ClientEvent.setupResizeHandler])
      | none =>
          (env.loopResult,
            [ClientEvent.setDataNonblocking true, ClientEvent.setupResizeHandler,
              ClientEvent.enterRelayLoop] ++ env.loopTrace)
  | Platform.windows =>
      (env.loopResult, [ClientEvent.enterRelayLoop] ++ env.loopTrace)

/-- `run_client_with_connection` (`mod.rs` lines 66–111): handshake, then on
fall-through `run_client_relay`. -/
def run_client_with_connection (config : ClientConfig) (platform : Platform)
    (henv : HandshakeEnv) (renv : RelayEnv) :
    Except IOError ClientExitReason × List ClientEvent :=
  let hs := handshake config.term_size henv
  match hs.1 with
  | Except.error e => (Except.error e, hs.2)
  | Except.ok (some r) => (Except.ok r, hs.2)
  | Except.ok none =>
      let rel := run_client_relay platform renv
      (rel.1, hs.2 ++ rel.2)

/-- `run_client` (`mod.rs` lines 57–60): `ClientConnection::connect` then
`run_client_with_connection`; a connect failure propagates via `?`. -/
def run_client (config : ClientConfig) (connectErr : Option IOError)
    (platform : Platform) (henv : HandshakeEnv) (renv : RelayEnv) :
    Except IOError ClientExitReason × List ClientEvent :=
  match connectErr with
  | some e => (Except.error e, [])
  | none => run_client_with_connection config platform henv renv

/-- Is the event a byte-level read or write on the data channel? -/
def ClientEvent.isDataChannel : ClientEvent → Bool
  | ClientEvent.dataRead => true
  | ClientEvent.dataWrite => true
  | _ => false

/-- Is the event the sending of a `Hello` control message? -/
def ClientEvent.isHelloWrite : ClientEvent → Bool
  | ClientEvent.writeControl (ClientControl.Hello _) => true
  | _ => false

/-- Is the event a `set_data_nonblocking` call? -/
def ClientEvent.isModeSwitch : ClientEvent → Bool
  | ClientEvent.setDataNonblocking _ => true
  | _ => false

/-- Is the event a raw-mode enable or disable? -/
def ClientEvent.isRawModeOp : ClientEvent → Bool
  | ClientEvent.enableRawMode => true
  | ClientEvent.disableRawMode => true
  | _ => false

/-- The prefix of a trace strictly before the first control-channel read (the
operations the client performs before any control reply can have arrived). -/
def eventsBeforeReply : List ClientEvent → List ClientEvent
  | [] => []
  | ClientEvent.readControl :: _ => []
  | e :: rest => e :: eventsBeforeReply rest

/-- The prefix of a trace strictly before the relay loop is entered. -/
def eventsBeforeRelayLoop : List ClientEvent → List ClientEvent
  | [] => []
  | ClientEvent.enterRelayLoop :: _ => []
  | e :: rest => e :: eventsBeforeRelayLoop rest

/-- Modelled from the spec: well-formedness of the (unavailable)
platform relay loops' traces. Per spec §3 and §4.4 the relay sends only
`Resize` and `Detach` control messages — `Hello` is sent exactly once, as the
first message of the connection, by the handshake. -/
def RelayTraceWF (tr : List ClientEvent) : Prop :=
  ∀ e ∈ tr, e.isHelloWrite = false

instance (tr : List ClientEvent) : Decidable (RelayTraceWF tr) := by
  unfold RelayTraceWF
  infer_instance

/-- Classification of a `run_client` outcome as the caller sees it: an
`Ok(reason)` is that reason; an `Err(e)` is the connection-error outcome
`ClientExitReason::Error(e)` (spec §7 propagation policy). -/
def classify : Except IOError ClientExitReason → ClientExitReason
  | Except.ok r => r
  | Except.error e => ClientExitReason.Error e

/-- Modelled from the spec: the terminal-restore step (the relay backends,
`relay_unix.rs` / `relay_windows.rs`, are not available). Per spec §4.5 it
forces the terminal out of raw mode and is an idempotent no-op when raw mode
was never entered. The `Bool` is whether the terminal is currently raw. -/
def restore_terminal : Bool → Bool :=
  fun _ => false

/-- Modelled from the spec: the relay engine's terminal lifecycle (the relay
backends are not available). Per spec §4.5 raw mode is enabled exactly once,
immediately before the relay loop starts, and disabled exactly once on every
exit path before the result — whichever of the loop's outcomes it is — is
returned. -/
def relay_with_raw_mode (loopOutcome : Except IOError ClientExitReason) :
    Except IOError ClientExitReason × List ClientEvent :=
  (loopOutcome,
    [ClientEvent.enableRawMode, ClientEvent.enterRelayLoop,
      ClientEvent.disableRawMode])

/-- Modelled from the spec: the shared resize flag state of the signal-driven
backend (`relay_unix.rs` is not available). Per spec §4.4/§5 the asynchronous
handler only sets an atomic flag; the terminal's current size is read when the
loop handles the flag. -/
structure ResizeState where
  flag : Bool
  termSize : TermSize
deriving DecidableEq

/-- Modelled from the spec: one resize trigger — the asynchronous handler sets
the shared flag; the terminal's size becomes the new size. -/
def resize_trigger (_ : ResizeState) (newSize : TermSize) : ResizeState :=
  { flag := true, termSize := newSize }

/-- A sequence of resize triggers applied in order. -/
def apply_triggers (s : ResizeState) (sizes : List TermSize) : ResizeState :=
  sizes.foldl resize_trigger s

/-- Modelled from the spec: the relay loop's per-iteration flag check — if the
flag is set, clear it and send one `Resize` carrying the current terminal
size; otherwise send nothing. -/
def check_resize_flag (s : ResizeState) : ResizeState × List ClientControl :=
  if s.flag then
    ({ s with flag := false }, [ClientControl.Resize s.termSize])
  else
    (s, [])

/-- Modelled from the spec: `ConnectError` — connect-time failure
(`ClientConnection::connect` in `server/ipc.rs` is not available). -/
structure ConnectError where
  msg : String
deriving DecidableEq

/-- A connected `ClientConnection` holds both live channel handles. -/
structure Conn where
  dataChanOpen : Bool
  controlChanOpen : Bool
deriving DecidableEq

/-- Resource events of `connect`. -/
inductive ConnEvent where
  | openData
  | openControl
  | releaseData
  | releaseControl
deriving DecidableEq

/-- Modelled from the spec: `ClientConnection::connect(endpoints)`
(`server/ipc.rs` is not available). Per spec §4.2 it opens the data channel
and the control channel; if either open fails it fails fast, releasing
whatever it already opened, so a one-channel partial connection is never an
end state. The two arguments describe whether each underlying open succeeds. -/
def connect (dataOutcome controlOutcome : Option ConnectError) :
    Except ConnectError Conn × List ConnEvent :=
  match dataOutcome with
  | some e => (Except.error e, [])
  | none =>
    match controlOutcome with
    | some e =>
        (Except.error e, [ConnEvent.openData, ConnEvent.releaseData])
    | none =>
        (Except.ok ⟨true, true⟩, [ConnEvent.openData, ConnEvent.openControl])

/-- A sample configuration used by the concrete witnesses. -/
def sampleConfig : ClientConfig :=
  ⟨⟨"fresh-data.sock", "fresh-control.sock"⟩, ⟨80, 24⟩⟩

/-- A sample relay environment used by the concrete witnesses. -/
def sampleRelayEnv : RelayEnv :=
  ⟨none, none, Except.ok ClientExitReason.ServerQuit, []⟩

/-- C1: a `ServerHello` whose `protocol_version` differs from the client's
`PROTOCOL_VERSION`, or a `VersionMismatch` reply, makes
`run_client_with_connection` return `Ok(ClientExitReason::VersionMismatch)`
carrying the server's version string; the relay loop is never entered and no
data-channel byte is read or written. -/
theorem C1_version_mismatch_gates_relay
    (config : ClientConfig) (platform : Platform) (renv : RelayEnv)
    (henv : HandshakeEnv) (v : String)
    (hw : henv.writeControlOutcome = none)
    (hr : (∃ sh, henv.readOutcome =
            ControlReadOutcome.decoded (ServerControl.Hello sh) ∧
            sh.protocol_version ≠ PROTOCOL_VERSION ∧ sh.server_version = v) ∨
          henv.readOutcome =
            ControlReadOutcome.decoded (ServerControl.VersionMismatch ⟨v⟩)) :
    (run_client_with_connection config platform henv renv).1 =
      Except.ok (ClientExitReason.VersionMismatch v) ∧
    ClientEvent.enterRelayLoop ∉
      (run_client_with_connection config platform henv renv).2 ∧
    ∀ e ∈ (run_client_with_connection config platform henv renv).2,
      e.isDataChannel = false := by
  rcases hr with ⟨sh, hro, hne, hv⟩ | hro
  · subst hv
    simp [run_client_with_connection, handshake, hw, hro, hne,
      ClientEvent.isDataChannel]
  · simp [run_client_with_connection, handshake, hw, hro,
      ClientEvent.isDataChannel]

/-- Witness for C1 at a concrete input: the server replies
`VersionMismatch { server_version: "0.9.0" }`. -/
theorem C1_witness :
    (run_client_with_connection sampleConfig Platform.unix
        ⟨none, ControlReadOutcome.decoded
          (ServerControl.VersionMismatch ⟨"0.9.0"⟩)⟩ sampleRelayEnv).1 =
      Except.ok (ClientExitReason.VersionMismatch "0.9.0") ∧
    ClientEvent.enterRelayLoop ∉
      (run_client_with_connection sampleConfig Platform.unix
        ⟨none, ControlReadOutcome.decoded
          (ServerControl.VersionMismatch ⟨"0.9.0"⟩)⟩ sampleRelayEnv).2 ∧
    ∀ e ∈ (run_client_with_connection sampleConfig Platform.unix
        ⟨none, ControlReadOutcome.decoded
          (ServerControl.VersionMismatch ⟨"0.9.0"⟩)⟩ sampleRelayEnv).2,
      e.isDataChannel = false :=
  C1_version_mismatch_gates_relay sampleConfig Platform.unix sampleRelayEnv
    ⟨none, ControlReadOutcome.decoded
      (ServerControl.VersionMismatch ⟨"0.9.0"⟩)⟩ "0.9.0" rfl (Or.inr rfl)

/-- C4: an unexpected control variant, a cleanly-closed control channel before
any reply, or an undecodable reply makes `run_client_with_connection`
terminate with the `Err` outcome (an unexpected-EOF error in the
closed-before-reply case), and the relay loop is never entered. -/
theorem C4_protocol_violation_is_error
    (config : ClientConfig) (platform : Platform) (renv : RelayEnv)
    (henv : HandshakeEnv)
    (hw : henv.writeControlOutcome = none)
    (hr : henv.readOutcome = ControlReadOutcome.closed ∨
          (∃ s, henv.readOutcome = ControlReadOutcome.undecodable s) ∨
          henv.readOutcome =
            ControlReadOutcome.decoded ServerControl.OtherVariant) :
    (∃ e, (run_client_with_connection config platform henv renv).1 =
      Except.error e) ∧
    (henv.readOutcome = ControlReadOutcome.closed →
      (run_client_with_connection config platform henv renv).1 =
        Except.error ⟨ErrorKind.UnexpectedEof, "Server closed connection"⟩) ∧
    ClientEvent.enterRelayLoop ∉
      (run_client_with_connection config platform henv renv).2 := by
  rcases hr with hro | ⟨s, hro⟩ | hro <;>
    simp [run_client_with_connection, handshake, hw, hro]

/-- Witness for C4 at a concrete input: the control channel closes cleanly
before any reply. -/
theorem C4_witness :
    (∃ e, (run_client_with_connection sampleConfig Platform.unix
      ⟨none, ControlReadOutcome.closed⟩ sampleRelayEnv).1 = Except.error e) ∧
    ((⟨none, ControlReadOutcome.closed⟩ : HandshakeEnv).readOutcome =
        ControlReadOutcome.closed →
      (run_client_with_connection sampleConfig Platform.unix
        ⟨none, ControlReadOutcome.closed⟩ sampleRelayEnv).1 =
        Except.error ⟨ErrorKind.UnexpectedEof, "Server closed connection"⟩) ∧
    ClientEvent.enterRelayLoop ∉
      (run_client_with_connection sampleConfig Platform.unix
        ⟨none, ControlReadOutcome.closed⟩ sampleRelayEnv).2 :=
  C4_protocol_violation_is_error sampleConfig Platform.unix sampleRelayEnv
    ⟨none, ControlReadOutcome.closed⟩ rfl (Or.inl rfl)

/-- C5: a `ServerControl::Error { message }` reply makes
`run_client_with_connection` terminate with the `Err` outcome wrapping the
message, and the relay loop is never entered. -/
theorem C5_server_error_is_wrapped
    (config : ClientConfig) (platform : Platform) (renv : RelayEnv)
    (henv : HandshakeEnv) (message : String)
    (hw : henv.writeControlOutcome = none)
    (hr : henv.readOutcome =
      ControlReadOutcome.decoded (ServerControl.Error message)) :
    (run_client_with_connection config platform henv renv).1 =
      Except.error (IOError.other ("Server error: " ++ message)) ∧
    ClientEvent.enterRelayLoop ∉
      (run_client_with_connection config platform henv renv).2 := by
  simp [run_client_with_connection, handshake, hw, hr]

/-- Witness for C5 at a concrete input: the server replies
`Error { message: "session full" }`. -/
theorem C5_witness :
    (run_client_with_connection sampleConfig Platform.unix
        ⟨none, ControlReadOutcome.decoded (ServerControl.Error "session full")⟩
        sampleRelayEnv).1 =
      Except.error (IOError.other ("Server error: " ++ "session full")) ∧
    ClientEvent.enterRelayLoop ∉
      (run_client_with_connection sampleConfig Platform.unix
        ⟨none, ControlReadOutcome.decoded (ServerControl.Error "session full")⟩
        sampleRelayEnv).2 :=
  C5_server_error_is_wrapped sampleConfig Platform.unix sampleRelayEnv
    ⟨none, ControlReadOutcome.decoded (ServerControl.Error "session full")⟩
    "session full" rfl rfl

/-- Helper: the only early `Ok` return of the handshake is a
`VersionMismatch` exit reason. -/
theorem handshake_some_is_version_mismatch (ts : TermSize) (env : HandshakeEnv)
    (r : ClientExitReason) (h : (handshake ts env).1 = Except.ok (some r)) :
    ∃ v, r = ClientExitReason.VersionMismatch v := by
  obtain ⟨w, ro⟩ := env
  cases w with
  | some e => simp [handshake] at h
  | none =>
    cases ro with
    | readErr e => simp [handshake] at h
    | closed => simp [handshake] at h
    | undecodable s => simp [handshake] at h
    | decoded m =>
      cases m with
      | Hello sh =>
        by_cases hv : sh.protocol_version = PROTOCOL_VERSION
        · simp [handshake, hv] at h
        · simp [handshake, hv] at h
          exact ⟨sh.server_version, h.symm⟩
      | VersionMismatch mm =>
        simp [handshake] at h
        exact ⟨mm.server_version, h.symm⟩
      | Error msg => simp [handshake] at h
      | OtherVariant => simp [handshake] at h

/-- Helper: the handshake falls through to the relay only when the hello was
written successfully and the reply was a `ServerHello` carrying the client's
own protocol version. -/
theorem handshake_proceed_characterisation (ts : TermSize) (env : HandshakeEnv)
    (h : (handshake ts env).1 = Except.ok none) :
    env.writeControlOutcome = none ∧
    ∃ sh, env.readOutcome = ControlReadOutcome.decoded (ServerControl.Hello sh) ∧
      sh.protocol_version = PROTOCOL_VERSION := by
  obtain ⟨w, ro⟩ := env
  cases w with
  | some e => simp [handshake] at h
  | none =>
    cases ro with
    | readErr e => simp [handshake] at h
    | closed => simp [handshake] at h
    | undecodable s => simp [handshake] at h
    | decoded m =>
      cases m with
      | Hello sh =>
        by_cases hv : sh.protocol_version = PROTOCOL_VERSION
        · exact ⟨rfl, sh, rfl, hv⟩
        · simp [handshake, hv] at h
      | VersionMismatch mm => simp [handshake] at h
      | Error msg => simp [handshake] at h
      | OtherVariant => simp [handshake] at h

/-- Helper: whenever `run_client_relay` produces an `Ok` result, the relay
loop was actually entered. -/
theorem relay_ok_enters_loop (platform : Platform) (renv : RelayEnv)
    (r : ClientExitReason)
    (h : (run_client_relay platform renv).1 = Except.ok r) :
    ClientEvent.enterRelayLoop ∈ (run_client_relay platform renv).2 := by
  obtain ⟨snb, shr, lres, ltr⟩ := renv
  cases platform with
  | unix =>
    cases snb with
    | some e => simp [run_client_relay] at h
    | none =>
      cases shr with
      | some e => simp [run_client_relay] at h
      | none => simp [run_client_relay]
  | windows => simp [run_client_relay]

/-- C8: every handshake failure path returns through the `Err` branch of the
`io::Result`, never as `Ok(ClientExitReason::Error)`; consequently the only
`Ok` value producible without entering the relay loop is
`ClientExitReason::VersionMismatch`. -/
theorem C8_ok_without_relay_is_version_mismatch
    (config : ClientConfig) (platform : Platform)
    (henv : HandshakeEnv) (renv : RelayEnv) :
    (∀ r, (run_client_with_connection config platform henv renv).1 =
        Except.ok r →
      ClientEvent.enterRelayLoop ∉
        (run_client_with_connection config platform henv renv).2 →
      ∃ v, r = ClientExitReason.VersionMismatch v) ∧
    (henv.writeControlOutcome = none →
      (henv.readOutcome = ControlReadOutcome.closed ∨
       (∃ s, henv.readOutcome = ControlReadOutcome.undecodable s) ∨
       (∃ m, henv.readOutcome =
          ControlReadOutcome.decoded (ServerControl.Error m)) ∨
       henv.readOutcome =
          ControlReadOutcome.decoded ServerControl.OtherVariant) →
      ∃ e, (run_client_with_connection config platform henv renv).1 =
        Except.error e) := by
  constructor
  · intro r hok hno
    rcases hh : (handshake config.term_size henv).1 with e | o
    · simp [run_client_with_connection, hh] at hok
    · cases o with
      | some r2 =>
        obtain ⟨v, hv⟩ := handshake_some_is_version_mismatch _ _ r2 hh
        simp [run_client_with_connection, hh] at hok
        exact ⟨v, by rw [← hok, hv]⟩
      | none =>
        exfalso
        apply hno
        have hmem := relay_ok_enters_loop platform renv r
          (by simpa [run_client_with_connection, hh] using hok)
        simp [run_client_with_connection, hh]
        exact Or.inr hmem
  · intro hw hr
    rcases hr with hro | ⟨s, hro⟩ | ⟨m, hro⟩ | hro <;>
      simp [run_client_with_connection, handshake, hw, hro]

/-- Witness for C8 at a concrete input: a `VersionMismatch` reply yields the
only relay-free `Ok` value, and an `Error` reply returns through `Err`. -/
theorem C8_witness :
    (∀ r, (run_client_with_connection sampleConfig Platform.unix
        ⟨none, ControlReadOutcome.decoded
          (ServerControl.VersionMismatch ⟨"2.0.0"⟩)⟩ sampleRelayEnv).1 =
        Except.ok r →
      ClientEvent.enterRelayLoop ∉
        (run_client_with_connection sampleConfig Platform.unix
          ⟨none, ControlReadOutcome.decoded
            (ServerControl.VersionMismatch ⟨"2.0.0"⟩)⟩ sampleRelayEnv).2 →
      ∃ v, r = ClientExitReason.VersionMismatch v) ∧
    ((⟨none, ControlReadOutcome.decoded
        (ServerControl.VersionMismatch ⟨"2.0.0"⟩)⟩ : HandshakeEnv).writeControlOutcome = none →
      ((⟨none, ControlReadOutcome.decoded
          (ServerControl.VersionMismatch ⟨"2.0.0"⟩)⟩ : HandshakeEnv).readOutcome =
            ControlReadOutcome.closed ∨
       (∃ s, (⟨none, ControlReadOutcome.decoded
          (ServerControl.VersionMismatch ⟨"2.0.0"⟩)⟩ : HandshakeEnv).readOutcome =
            ControlReadOutcome.undecodable s) ∨
       (∃ m, (⟨none, ControlReadOutcome.decoded
          (ServerControl.VersionMismatch ⟨"2.0.0"⟩)⟩ : HandshakeEnv).readOutcome =
            ControlReadOutcome.decoded (ServerControl.Error m)) ∨
       (⟨none, ControlReadOutcome.decoded
          (ServerControl.VersionMismatch ⟨"2.0.0"⟩)⟩ : HandshakeEnv).readOutcome =
            ControlReadOutcome.decoded ServerControl.OtherVariant) →
      ∃ e, (run_client_with_connection sampleConfig Platform.unix
        ⟨none, ControlReadOutcome.decoded
          (ServerControl.VersionMismatch ⟨"2.0.0"⟩)⟩ sampleRelayEnv).1 =
        Except.error e) :=
  C8_ok_without_relay_is_version_mismatch sampleConfig Platform.unix
    ⟨none, ControlReadOutcome.decoded
      (ServerControl.VersionMismatch ⟨"2.0.0"⟩)⟩ sampleRelayEnv

/-- C2: on a fresh connection the first control message written is `Hello`,
sent exactly once (the relay sends only `Resize`/`Detach`); no data-channel
I/O happens before the control reply is read; and the relay loop is entered
only when the handshake produced a `ServerHello` with the client's own
protocol version. -/
theorem C2_handshake_ordering
    (config : ClientConfig) (platform : Platform)
    (henv : HandshakeEnv) (renv : RelayEnv)
    (hwf : RelayTraceWF renv.loopTrace) :
    (run_client_with_connection config platform henv renv).2.head? =
      some (ClientEvent.writeControl
        (ClientControl.Hello ⟨config.term_size⟩)) ∧
    (run_client_with_connection config platform henv renv).2.countP
      (fun e => e.isHelloWrite) = 1 ∧
    (∀ e ∈ eventsBeforeReply
        (run_client_with_connection config platform henv renv).2,
      e.isDataChannel = false) ∧
    (ClientEvent.enterRelayLoop ∈
        (run_client_with_connection config platform henv renv).2 →
      henv.writeControlOutcome = none ∧
      ∃ sh, henv.readOutcome =
          ControlReadOutcome.decoded (ServerControl.Hello sh) ∧
        sh.protocol_version = PROTOCOL_VERSION) := by
  obtain ⟨w, ro⟩ := henv
  obtain ⟨snb, shr, lres, ltr⟩ := renv
  have hltr : ltr.countP (fun e => e.isHelloWrite) = 0 := by
    refine List.countP_eq_zero.mpr ?_
    intro e he
    simp [hwf e he]
  cases w with
  | some e =>
    simp [run_client_with_connection, handshake, eventsBeforeReply,
      List.countP_cons, ClientEvent.isHelloWrite, ClientEvent.isDataChannel]
  | none =>
    cases ro with
    | readErr e =>
      simp [run_client_with_connection, handshake, eventsBeforeReply,
        List.countP_cons, ClientEvent.isHelloWrite, ClientEvent.isDataChannel]
    | closed =>
      simp [run_client_with_connection, handshake, eventsBeforeReply,
        List.countP_cons, ClientEvent.isHelloWrite, ClientEvent.isDataChannel]
    | undecodable s =>
      simp [run_client_with_connection, handshake, eventsBeforeReply,
        List.countP_cons, ClientEvent.isHelloWrite, ClientEvent.isDataChannel]
    | decoded m =>
      cases m with
      | Hello sh =>
        by_cases hv : sh.protocol_version = PROTOCOL_VERSION
        · cases platform <;> cases snb <;> cases shr <;>
            simp [run_client_with_connection, handshake, run_client_relay, hv,
              eventsBeforeReply, List.countP_cons, List.countP_append, hltr,
              ClientEvent.isHelloWrite, ClientEvent.isDataChannel] <;>
            exact fun a ha => hwf a ha
        · simp [run_client_with_connection, handshake, hv, eventsBeforeReply,
            List.countP_cons, ClientEvent.isHelloWrite,
            ClientEvent.isDataChannel]
      | VersionMismatch mm =>
        simp [run_client_with_connection, handshake, eventsBeforeReply,
          List.countP_cons, ClientEvent.isHelloWrite, ClientEvent.isDataChannel]
      | Error msg =>
        simp [run_client_with_connection, handshake, eventsBeforeReply,
          List.countP_cons, ClientEvent.isHelloWrite, ClientEvent.isDataChannel]
      | OtherVariant =>
        simp [run_client_with_connection, handshake, eventsBeforeReply,
          List.countP_cons, ClientEvent.isHelloWrite, ClientEvent.isDataChannel]

/-- Witness for C2 at a concrete input: a successful matching handshake on
Unix, where the relay loop then writes data bytes and one `Resize`. -/
theorem C2_witness :
    (run_client_with_connection sampleConfig Platform.unix
        ⟨none, ControlReadOutcome.decoded
          (ServerControl.Hello ⟨PROTOCOL_VERSION, "1.0.0", "abc"⟩)⟩
        ⟨none, none, Except.ok ClientExitReason.ServerQuit,
          [ClientEvent.dataRead, ClientEvent.dataWrite,
            ClientEvent.writeControl (ClientControl.Resize ⟨100, 30⟩)]⟩).2.head? =
      some (ClientEvent.writeControl
        (ClientControl.Hello ⟨sampleConfig.term_size⟩)) ∧
    (run_client_with_connection sampleConfig Platform.unix
        ⟨none, ControlReadOutcome.decoded
          (ServerControl.Hello ⟨PROTOCOL_VERSION, "1.0.0", "abc"⟩)⟩
        ⟨none, none, Except.ok ClientExitReason.ServerQuit,
          [ClientEvent.dataRead, ClientEvent.dataWrite,
            ClientEvent.writeControl (ClientControl.Resize ⟨100, 30⟩)]⟩).2.countP
      (fun e => e.isHelloWrite) = 1 ∧
    (∀ e ∈ eventsBeforeReply
        (run_client_with_connection sampleConfig Platform.unix
          ⟨none, ControlReadOutcome.decoded
            (ServerControl.Hello ⟨PROTOCOL_VERSION, "1.0.0", "abc"⟩)⟩
          ⟨none, none, Except.ok ClientExitReason.ServerQuit,
            [ClientEvent.dataRead, ClientEvent.dataWrite,
              ClientEvent.writeControl (ClientControl.Resize ⟨100, 30⟩)]⟩).2,
      e.isDataChannel = false) ∧
    (ClientEvent.enterRelayLoop ∈
        (run_client_with_connection sampleConfig Platform.unix
          ⟨none, ControlReadOutcome.decoded
            (ServerControl.Hello ⟨PROTOCOL_VERSION, "1.0.0", "abc"⟩)⟩
          ⟨none, none, Except.ok ClientExitReason.ServerQuit,
            [ClientEvent.dataRead, ClientEvent.dataWrite,
              ClientEvent.writeControl (ClientControl.Resize ⟨100, 30⟩)]⟩).2 →
      (⟨none, ControlReadOutcome.decoded
          (ServerControl.Hello ⟨PROTOCOL_VERSION, "1.0.0", "abc"⟩)⟩ :
            HandshakeEnv).writeControlOutcome = none ∧
      ∃ sh, (⟨none, ControlReadOutcome.decoded
          (ServerControl.Hello ⟨PROTOCOL_VERSION, "1.0.0", "abc"⟩)⟩ :
            HandshakeEnv).readOutcome =
          ControlReadOutcome.decoded (ServerControl.Hello sh) ∧
        sh.protocol_version = PROTOCOL_VERSION) :=
  C2_handshake_ordering sampleConfig Platform.unix
    ⟨none, ControlReadOutcome.decoded
      (ServerControl.Hello ⟨PROTOCOL_VERSION, "1.0.0", "abc"⟩)⟩
    ⟨none, none, Except.ok ClientExitReason.ServerQuit,
      [ClientEvent.dataRead, ClientEvent.dataWrite,
        ClientEvent.writeControl (ClientControl.Resize ⟨100, 30⟩)]⟩
    (by decide)

/-- Membership of an exit outcome in the k-th member of the spec's closed
taxonomy `{ServerQuit, Detached, VersionMismatch, Error}`. -/
def reasonMatches (r : ClientExitReason) : Nat → Prop
  | 0 => r = ClientExitReason.ServerQuit
  | 1 => r = ClientExitReason.Detached
  | 2 => ∃ v, r = ClientExitReason.VersionMismatch v
  | 3 => ∃ e, r = ClientExitReason.Error e
  | _ => False

/-- Helper: every `ClientExitReason` belongs to exactly one member of the
four-member taxonomy. -/
theorem reasonMatches_existsUnique (r : ClientExitReason) :
    ∃! k, reasonMatches r k := by
  cases r with
  | ServerQuit =>
    refine ⟨0, rfl, ?_⟩
    intro k hk
    match k, hk with
    | 0, _ => rfl
    | 1, hk => exact absurd hk (by simp [reasonMatches])
    | 2, ⟨v, hv⟩ => exact absurd hv (by simp)
    | 3, ⟨e, he⟩ => exact absurd he (by simp)
    | (n + 4), hk => exact absurd hk (by simp [reasonMatches])
  | Detached =>
    refine ⟨1, rfl, ?_⟩
    intro k hk
    match k, hk with
    | 0, hk => exact absurd hk (by simp [reasonMatches])
    | 1, _ => rfl
    | 2, ⟨v, hv⟩ => exact absurd hv (by simp)
    | 3, ⟨e, he⟩ => exact absurd he (by simp)
    | (n + 4), hk => exact absurd hk (by simp [reasonMatches])
  | VersionMismatch v =>
    refine ⟨2, ⟨v, rfl⟩, ?_⟩
    intro k hk
    match k, hk with
    | 0, hk => exact absurd hk (by simp [reasonMatches])
    | 1, hk => exact absurd hk (by simp [reasonMatches])
    | 2, _ => rfl
    | 3, ⟨e, he⟩ => exact absurd he (by simp)
    | (n + 4), hk => exact absurd hk (by simp [reasonMatches])
  | Error e =>
    refine ⟨3, ⟨e, rfl⟩, ?_⟩
    intro k hk
    match k, hk with
    | 0, hk => exact absurd hk (by simp [reasonMatches])
    | 1, hk => exact absurd hk (by simp [reasonMatches])
    | 2, ⟨v, hv⟩ => exact absurd hv (by simp)
    | 3, _ => rfl
    | (n + 4), hk => exact absurd hk (by simp [reasonMatches])

/-- C3: every termination of `run_client` — over all connect outcomes,
platforms and connection behaviours — is classified into exactly one member
of the closed set `{ServerQuit, Detached, VersionMismatch, Error}`; no other
outcome is representable. -/
theorem C3_exit_taxonomy_closed
    (config : ClientConfig) (connectErr : Option IOError)
    (platform : Platform) (henv : HandshakeEnv) (renv : RelayEnv) :
    ∃! k, reasonMatches
      (classify (run_client config connectErr platform henv renv).1) k :=
  reasonMatches_existsUnique _

/-- C9: the data channel's mode is never switched during the handshake
(blocking throughout); on the Unix backend `set_data_nonblocking(true)` is
invoked exactly once before the relay loop is entered; on the Windows backend
no mode switch happens before the relay loop. -/
theorem C9_nonblocking_switch_placement
    (term_size : TermSize) (henv : HandshakeEnv) (renv : RelayEnv) :
    ((handshake term_size henv).2.countP (fun e => e.isModeSwitch) = 0) ∧
    ((eventsBeforeRelayLoop (run_client_relay Platform.unix renv).2).countP
        (fun e => e.isModeSwitch) = 1 ∧
      ClientEvent.setDataNonblocking true ∈
        eventsBeforeRelayLoop (run_client_relay Platform.unix renv).2) ∧
    ((eventsBeforeRelayLoop (run_client_relay Platform.windows renv).2).countP
        (fun e => e.isModeSwitch) = 0) := by
  obtain ⟨w, ro⟩ := henv
  obtain ⟨snb, shr, lres, ltr⟩ := renv
  refine ⟨?_, ⟨?_, ?_⟩, ?_⟩
  · cases w with
    | some e =>
      simp [handshake, List.countP_cons, ClientEvent.isModeSwitch]
    | none =>
      cases ro with
      | readErr e =>
        simp [handshake, List.countP_cons, ClientEvent.isModeSwitch]
      | closed =>
        simp [handshake, List.countP_cons, ClientEvent.isModeSwitch]
      | undecodable s =>
        simp [handshake, List.countP_cons, ClientEvent.isModeSwitch]
      | decoded m =>
        cases m with
        | Hello sh =>
          by_cases hv : sh.protocol_version = PROTOCOL_VERSION <;>
            simp [handshake, hv, List.countP_cons, ClientEvent.isModeSwitch]
        | VersionMismatch mm =>
          simp [handshake, List.countP_cons, ClientEvent.isModeSwitch]
        | Error msg =>
          simp [handshake, List.countP_cons, ClientEvent.isModeSwitch]
        | OtherVariant =>
          simp [handshake, List.countP_cons, ClientEvent.isModeSwitch]
  · cases snb <;> cases shr <;>
      simp [run_client_relay, eventsBeforeRelayLoop, List.countP_cons,
        ClientEvent.isModeSwitch]
  · cases snb <;> cases shr <;>
      simp [run_client_relay, eventsBeforeRelayLoop]
  · cases snb <;> cases shr <;>
      simp [run_client_relay, eventsBeforeRelayLoop]

/-- C6: raw mode is never touched during the handshake (proved against the
embedded handshake), and — per the spec's model of the missing relay backends
— it is enabled exactly once immediately before the relay loop, disabled
exactly once as the last step before the result (whatever the exit reason or
error) is returned, and the restore step is an idempotent no-op when raw mode
was never entered or when run twice. -/
theorem C6_raw_mode_lifecycle
    (term_size : TermSize) (henv : HandshakeEnv)
    (loopOutcome : Except IOError ClientExitReason) :
    ((handshake term_size henv).2.countP (fun e => e.isRawModeOp) = 0) ∧
    ((relay_with_raw_mode loopOutcome).2.count ClientEvent.enableRawMode = 1 ∧
      (relay_with_raw_mode loopOutcome).2.count ClientEvent.disableRawMode = 1 ∧
      eventsBeforeRelayLoop (relay_with_raw_mode loopOutcome).2 =
        [ClientEvent.enableRawMode] ∧
      (relay_with_raw_mode loopOutcome).2.getLast? =
        some ClientEvent.disableRawMode ∧
      (relay_with_raw_mode loopOutcome).1 = loopOutcome) ∧
    (∀ raw : Bool, restore_terminal (restore_terminal raw) =
      restore_terminal raw) ∧
    restore_terminal false = false := by
  obtain ⟨w, ro⟩ := henv
  refine ⟨?_, ?_, ?_, rfl⟩
  · cases w with
    | some e =>
      simp [handshake, List.countP_cons, ClientEvent.isRawModeOp]
    | none =>
      cases ro with
      | readErr e =>
        simp [handshake, List.countP_cons, ClientEvent.isRawModeOp]
      | closed =>
        simp [handshake, List.countP_cons, ClientEvent.isRawModeOp]
      | undecodable s =>
        simp [handshake, List.countP_cons, ClientEvent.isRawModeOp]
      | decoded m =>
        cases m with
        | Hello sh =>
          by_cases hv : sh.protocol_version = PROTOCOL_VERSION <;>
            simp [handshake, hv, List.countP_cons, ClientEvent.isRawModeOp]
        | VersionMismatch mm =>
          simp [handshake, List.countP_cons, ClientEvent.isRawModeOp]
        | Error msg =>
          simp [handshake, List.countP_cons, ClientEvent.isRawModeOp]
        | OtherVariant =>
          simp [handshake, List.countP_cons, ClientEvent.isRawModeOp]
  · refine ⟨?_, ?_, ?_, rfl, rfl⟩ <;>
      simp [relay_with_raw_mode, eventsBeforeRelayLoop, List.count_cons]
  · intro raw
    rfl

/-- Helper: after a nonempty sequence of resize triggers, the shared flag is
set and the recorded terminal size is the last size triggered. -/
theorem apply_triggers_last (s : ResizeState) (sizes : List TermSize)
    (z : TermSize) (h : sizes.getLast? = some z) :
    apply_triggers s sizes = ⟨true, z⟩ := by
  induction sizes generalizing s with
  | nil => simp at h
  | cons a t ih =>
    cases t with
    | nil =>
      simp [List.getLast?] at h
      simp [apply_triggers, resize_trigger, h]
    | cons b t2 =>
      have h2 : (b :: t2).getLast? = some z := by
        simpa [List.getLast?_cons_cons] using h
      simpa [apply_triggers] using ih (resize_trigger s a) h2

/-- C7: any sequence of N ≥ 1 resize triggers between two consecutive flag
checks of the relay loop produces exactly one `Resize` control message, whose
payload is the terminal's size at the moment the loop handled the flag (the
last triggered size, never an intermediate one); a further check with no new
triggers sends nothing. -/
theorem C7_resize_coalescing (s : ResizeState) (sizes : List TermSize)
    (z : TermSize) (h : sizes.getLast? = some z) :
    (check_resize_flag (apply_triggers s sizes)).2 =
      [ClientControl.Resize z] ∧
    (check_resize_flag (check_resize_flag (apply_triggers s sizes)).1).2 =
      [] := by
  rw [apply_triggers_last s sizes z h]
  simp [check_resize_flag]

/-- Witness for C7 at a concrete input: two resizes coalesce into one
`Resize` carrying the final size. -/
theorem C7_witness :
    (check_resize_flag (apply_triggers ⟨false, ⟨80, 24⟩⟩
        [⟨100, 30⟩, ⟨120, 40⟩])).2 =
      [ClientControl.Resize ⟨120, 40⟩] ∧
    (check_resize_flag (check_resize_flag (apply_triggers ⟨false, ⟨80, 24⟩⟩
        [⟨100, 30⟩, ⟨120, 40⟩])).1).2 = [] :=
  C7_resize_coalescing ⟨false, ⟨80, 24⟩⟩ [⟨100, 30⟩, ⟨120, 40⟩] ⟨120, 40⟩
    (by decide)

/-- C10: `connect` either opens both channels and returns a connection owning
both, or fails with a `ConnectError` having released every channel it had
opened — a one-channel partial connection is never an end state. -/
theorem C10_connect_all_or_nothing
    (dataOutcome controlOutcome : Option ConnectError) :
    (∃ c : Conn, (connect dataOutcome controlOutcome).1 = Except.ok c ∧
      c.dataChanOpen = true ∧ c.controlChanOpen = true ∧
      dataOutcome = none ∧ controlOutcome = none) ∨
    (∃ e, (connect dataOutcome controlOutcome).1 = Except.error e ∧
      (connect dataOutcome controlOutcome).2.count ConnEvent.openData =
        (connect dataOutcome controlOutcome).2.count ConnEvent.releaseData ∧
      (connect dataOutcome controlOutcome).2.count ConnEvent.openControl =
        (connect dataOutcome controlOutcome).2.count
          ConnEvent.releaseControl) := by
  cases dataOutcome with
  | some e =>
    exact Or.inr ⟨e, by simp [connect]⟩
  | none =>
    cases controlOutcome with
    | some e =>
      refine Or.inr ⟨e, by simp [connect], ?_, ?_⟩ <;> simp [connect]
    | none =>
      exact Or.inl ⟨⟨true, true⟩, by simp [connect], rfl, rfl, rfl, rfl⟩
